import Mathlib

/-!
Verification of the findings-normalization and risk-scoring pipeline of the
jenkins-automation security scripts.

The development shallowly embeds the three Python sources:
  * security-scripts/generate_report_FULL.py — the module-level extraction,
    aggregation, sorting, risk-scoring and summary-emission pipeline;
  * security-scripts/security_scan.py — SecurityScanner.calculate_summary and
    the TruffleHog artifact writer (run_trufflehog);
  * security-scripts/generate_report.py — the
    SecurityReportGenerator method _calculate_risk_score.

Python exceptions are modelled with Option: a record whose field accesses
would raise (for example calling .get on a non-dict, .upper() on a non-string,
or iterating a non-list) yields none; a loop that hits such a record keeps the
state updates made by the records before it and aborts the rest of the processing for that tool, which is exactly what the per-tool try/except blocks in the
sources do.  An absent or unparsable artifact file is an Option.none input.
Python numbers read from JSON are modelled as rationals.
-/

namespace SecReport

/-- JSON values as produced by the Python json.load function.  Numbers are modelled as
rationals; object key order is the list order (Python dicts preserve
insertion order, and json.dump writes keys in that order). -/
inductive Json where
  | null
  | bool (b : Bool)
  | num (q : ℚ)
  | str (s : String)
  | arr (xs : List Json)
  | obj (kvs : List (String × Json))
deriving Repr

/-- Python str.upper(), as a structural map over the character list (the
severity tokens involved are ASCII). -/
def pyUpper (s : String) : String := ⟨s.data.map Char.toUpper⟩

/-- Python str.lower(), as a structural map over the character list. -/
def pyLower (s : String) : String := ⟨s.data.map Char.toLower⟩

/-- Python s[:n], as a structural take on the character list. -/
def pyTake (s : String) (n : Nat) : String := ⟨s.data.take n⟩

/-- Python d.get(k, default): returns the value stored under k, or the default
when the key is absent.  Calling .get on anything that is not a dict raises
AttributeError, modelled as none. -/
def Json.get : Json → String → Json → Option Json
  | .obj kvs, k, d => some ((kvs.lookup k).getD d)
  | _, _, _ => none

/-- A value used as a Python str (sliced or .upper()ed): raises unless it is
a string. -/
def Json.asStr : Json → Option String
  | .str s => some s
  | _ => none

/-- A value iterated as a list of records.  Iterating a non-list is modelled
as an error (Python would raise on the records of a str or dict iterate, and
never reaches the loop body of any other type). -/
def Json.asArr : Json → Option (List Json)
  | .arr xs => some xs
  | _ => none

/-- A value read as a number (line numbers): raises unless numeric. -/
def Json.asNum : Json → Option ℚ
  | .num q => some q
  | _ => none

/-- Python len(x): defined for lists, dicts and strings, raises otherwise. -/
def Json.pyLen : Json → Option Nat
  | .arr xs => some xs.length
  | .obj kvs => some kvs.length
  | .str s => some s.length
  | _ => none

/-- Python str(x) as used by the format calls.  Container reprs are
abbreviated; no claim depends on them. -/
def Json.pyStr : Json → String
  | .null => "None"
  | .bool true => "True"
  | .bool false => "False"
  | .num q => if q.den = 1 then toString q.num else toString q
  | .str s => s
  | .arr _ => "[...]"
  | .obj _ => "..."

/-- Key list of a JSON object (empty for non-objects). -/
def Json.keys : Json → List String
  | .obj kvs => kvs.map Prod.fst
  | _ => []

/-- Whether the value is a JSON object. -/
def Json.isObj : Json → Bool
  | .obj _ => true
  | _ => false

/-- One normalized finding, the issue dict built by
generate_report_FULL.py (keys tool/type/severity/file/line/title/details). -/
structure Issue where
  tool : String
  type : String
  severity : String
  file : String
  line : ℚ
  title : String
  details : String
deriving Repr, DecidableEq

/-- The stats dict of generate_report_FULL.py lines 120-127 (and each entry
of tool_stats, lines 130-134): per-severity tallies plus a running total. -/
structure Stats where
  critical : Nat
  high : Nat
  medium : Nat
  low : Nat
  info : Nat
  total : Nat
deriving Repr, DecidableEq

/-- The all-zero tally both dicts start from. -/
def Stats.zero : Stats := ⟨0, 0, 0, 0, 0, 0⟩

/-- Membership test sev_lower in stats (generate_report_FULL.py lines
163, 201, 223, 246): the dict keys are the five severities plus total. -/
def Stats.hasKey (k : String) : Bool :=
  k = "critical" || k = "high" || k = "medium" || k = "low" || k = "info" || k = "total"

/-- The dict update stats[k] += 1. -/
def Stats.bump (s : Stats) (k : String) : Stats :=
  if k = "critical" then { s with critical := s.critical + 1 }
  else if k = "high" then { s with high := s.high + 1 }
  else if k = "medium" then { s with medium := s.medium + 1 }
  else if k = "low" then { s with low := s.low + 1 }
  else if k = "info" then { s with info := s.info + 1 }
  else if k = "total" then { s with total := s.total + 1 }
  else s

/-- The per-record tally update of generate_report_FULL.py (lines 162-166 and
the analogous Trivy blocks): bump the bucket named by the lowercased severity
when it is a key of the dict, and always bump the total. -/
def Stats.tallyStep (st : Stats) (i : Issue) : Stats :=
  let k := pyLower i.severity
  let st1 := if Stats.hasKey k then st.bump k else st
  { st1 with total := st1.total + 1 }

/-- The unconditional TruffleHog tally update of generate_report_FULL.py
lines 278-281: critical and total are bumped directly. -/
def Stats.tallyStepTruffle (st : Stats) : Stats :=
  { st with critical := st.critical + 1, total := st.total + 1 }

/-- The tool_stats dict of generate_report_FULL.py lines 130-134. -/
structure ToolStats where
  semgrep : Stats
  trivy : Stats
  trufflehog : Stats
deriving Repr, DecidableEq

/-- Selector for the three tool keys of tool_stats. -/
inductive ToolKey where
  | semgrep
  | trivy
  | trufflehog
deriving Repr, DecidableEq

/-- Read the tally of one tool. -/
def ToolStats.get (t : ToolStats) : ToolKey → Stats
  | .semgrep => t.semgrep
  | .trivy => t.trivy
  | .trufflehog => t.trufflehog

/-- Write the tally of one tool. -/
def ToolStats.set (t : ToolStats) : ToolKey → Stats → ToolStats
  | .semgrep, s => { t with semgrep := s }
  | .trivy, s => { t with trivy := s }
  | .trufflehog, s => { t with trufflehog := s }

/-- The mutable module state of generate_report_FULL.py: the issues_found
list, the global stats dict and the per-tool tool_stats dict. -/
structure ReportState where
  issues : List Issue
  stats : Stats
  toolStats : ToolStats
deriving Repr, DecidableEq

/-- The initial state (lines 119-134). -/
def initState : ReportState :=
  { issues := [], stats := Stats.zero, toolStats := ⟨Stats.zero, Stats.zero, Stats.zero⟩ }

/-- Appending one issue and bumping the global and per-tool tallies, as done
for Semgrep (lines 160-167) and Trivy (lines 198-206, 221-229, 244-252). -/
def ReportState.addIssue (s : ReportState) (tk : ToolKey) (i : Issue) : ReportState :=
  { issues := s.issues ++ [i],
    stats := s.stats.tallyStep i,
    toolStats := s.toolStats.set tk ((s.toolStats.get tk).tallyStep i) }

/-- Appending one TruffleHog issue (lines 277-281): the bumps are
unconditional on the critical bucket of both dicts. -/
def ReportState.addIssueTruffle (s : ReportState) (i : Issue) : ReportState :=
  { issues := s.issues ++ [i],
    stats := s.stats.tallyStepTruffle,
    toolStats := { s.toolStats with trufflehog := s.toolStats.trufflehog.tallyStepTruffle } }

/-- One Semgrep result record (generate_report_FULL.py lines 144-159). -/
def semgrepIssue (result : Json) : Option Issue := do
  let extra ← result.get "extra" (.obj [])
  let sevRaw ← (extra.get "severity" (.str "INFO")) >>= Json.asStr
  let sevUp := pyUpper sevRaw
  let severity :=
    if sevUp = "ERROR" then "HIGH"
    else if sevUp = "WARNING" then "MEDIUM"
    else sevUp
  let path ← (result.get "path" (.str "Unknown")) >>= Json.asStr
  let start ← result.get "start" (.obj [])
  let line ← (start.get "line" (.num 0)) >>= Json.asNum
  let checkId ← (result.get "check_id" (.str "Unknown")) >>= Json.asStr
  let msg ← (extra.get "message" (.str "No description")) >>= Json.asStr
  pure { tool := "Semgrep", type := "Code Security", severity := severity,
         file := pyTake path 80, line := line, title := checkId,
         details := pyTake msg 200 }

/-- One Trivy vulnerability record (lines 183-197). -/
def trivyVulnIssue (result vuln : Json) : Option Issue := do
  let sevRaw ← (vuln.get "Severity" (.str "UNKNOWN")) >>= Json.asStr
  let severity := pyUpper sevRaw
  let target ← (result.get "Target" (.str "Unknown")) >>= Json.asStr
  let pkg ← (vuln.get "PkgName" (.str "Unknown")) >>= Json.asStr
  let vid ← (vuln.get "VulnerabilityID" (.str "")) >>= Json.asStr
  let iv ← (vuln.get "InstalledVersion" (.str "?")) >>= Json.asStr
  let fv ← (vuln.get "FixedVersion" (.str "No fix available")) >>= Json.asStr
  pure { tool := "Trivy", type := "Vulnerability", severity := severity,
         file := pyTake target 80, line := 0,
         title := pkg ++ " - " ++ vid,
         details := "Version: " ++ iv ++ " | Fix: " ++ fv }

/-- One Trivy misconfiguration record (lines 209-220). -/
def trivyMisconfIssue (result mis : Json) : Option Issue := do
  let sevRaw ← (mis.get "Severity" (.str "UNKNOWN")) >>= Json.asStr
  let severity := pyUpper sevRaw
  let target ← (result.get "Target" (.str "Unknown")) >>= Json.asStr
  let cm ← mis.get "CauseMetadata" (.obj [])
  let line ← (cm.get "StartLine" (.num 0)) >>= Json.asNum
  let mid ← (mis.get "ID" (.str "Unknown")) >>= Json.asStr
  let mtitle ← (mis.get "Title" (.str "")) >>= Json.asStr
  let desc ← (mis.get "Description" (.str "No description")) >>= Json.asStr
  pure { tool := "Trivy", type := "Misconfiguration", severity := severity,
         file := pyTake target 80, line := line,
         title := mid ++ " - " ++ mtitle, details := pyTake desc 200 }

/-- One Trivy secret record (lines 232-243).  The severity is the raw
Severity field uppercased, defaulting to HIGH only when the field is
absent. -/
def trivySecretIssue (result sec : Json) : Option Issue := do
  let sevRaw ← (sec.get "Severity" (.str "HIGH")) >>= Json.asStr
  let severity := pyUpper sevRaw
  let target ← (result.get "Target" (.str "Unknown")) >>= Json.asStr
  let line ← (sec.get "StartLine" (.num 0)) >>= Json.asNum
  let stitle ← (sec.get "Title" (.str "Secret detected")) >>= Json.asStr
  let ruleId ← (sec.get "RuleID" (.str "Secret found - hidden for security")) >>= Json.asStr
  pure { tool := "Trivy", type := "Secret", severity := severity,
         file := pyTake target 80, line := line, title := stitle, details := ruleId }

/-- One TruffleHog record (lines 265-276): the severity is the literal
CRITICAL. -/
def truffleIssue (secret : Json) : Option Issue := do
  let sm ← secret.get "SourceMetadata" (.obj [])
  let dat ← sm.get "Data" (.obj [])
  let fsys ← dat.get "Filesystem" (.obj [])
  let file ← (fsys.get "file" (.str "Unknown")) >>= Json.asStr
  let line ← (fsys.get "line" (.num 0)) >>= Json.asNum
  let det ← (secret.get "DetectorName" (.str "Secret detected")) >>= Json.asStr
  let verified ← secret.get "Verified" (.bool false)
  pure { tool := "TruffleHog", type := "Secret", severity := "CRITICAL",
         file := pyTake file 80, line := line, title := det,
         details := "Verified: " ++ verified.pyStr }

/-- Run a per-record extractor over a list; a record that raises keeps the
issues of the records before it and drops the rest (the exception aborts the
enclosing loop). -/
def collectUntil (f : Json → Option Issue) : List Json → List Issue
  | [] => []
  | x :: xs =>
    match f x with
    | some i => i :: collectUntil f xs
    | none => []

/-- Like collectUntil, also reporting whether the whole list was processed
without an exception. -/
def collectUntilF (f : Json → Option Issue) : List Json → List Issue × Bool
  | [] => ([], true)
  | x :: xs =>
    match f x with
    | some i =>
      let r := collectUntilF f xs
      (i :: r.1, r.2)
    | none => ([], false)

/-- Issues contributed by the Semgrep artifact (lines 137-171): nothing when
the file is absent or unparsable, when the document is not a dict, or when
the results value is not a list. -/
def semgrepIssuesFull : Option Json → List Issue
  | none => []
  | some doc =>
    match doc.get "results" (.arr []) >>= Json.asArr with
    | none => []
    | some results => collectUntil semgrepIssue results

/-- Issues contributed by one Trivy result entry (lines 181-252): the three
sub-lists are processed in order Vulnerabilities, Misconfigurations, Secrets;
an exception keeps the issues already produced and aborts the rest. -/
def trivyResultIssues (result : Json) : List Issue × Bool :=
  match result.get "Vulnerabilities" (.arr []) >>= Json.asArr with
  | none => ([], false)
  | some vulns =>
    let v := collectUntilF (trivyVulnIssue result) vulns
    if !v.2 then (v.1, false) else
    match result.get "Misconfigurations" (.arr []) >>= Json.asArr with
    | none => (v.1, false)
    | some mis =>
      let m := collectUntilF (trivyMisconfIssue result) mis
      if !m.2 then (v.1 ++ m.1, false) else
      match result.get "Secrets" (.arr []) >>= Json.asArr with
      | none => (v.1 ++ m.1, false)
      | some secs =>
        let s := collectUntilF (trivySecretIssue result) secs
        (v.1 ++ m.1 ++ s.1, s.2)

/-- Issues of a list of Trivy result entries, stopping at the first entry
that raises. -/
def trivyResultsIssues : List Json → List Issue
  | [] => []
  | r :: rs =>
    let p := trivyResultIssues r
    if p.2 then p.1 ++ trivyResultsIssues rs else p.1

/-- Issues contributed by the Trivy artifact (lines 173-256). -/
def trivyIssuesFull : Option Json → List Issue
  | none => []
  | some doc =>
    match doc.get "Results" (.arr []) >>= Json.asArr with
    | none => []
    | some rs => trivyResultsIssues rs

/-- Issues contributed by the TruffleHog artifact (lines 258-285).  The code
looks up the secrets key on the parsed document, so a document that is not a
dict (for example a top-level array) raises AttributeError and contributes
nothing. -/
def truffleIssuesFull : Option Json → List Issue
  | none => []
  | some doc =>
    match doc.get "secrets" (.arr []) >>= Json.asArr with
    | none => []
    | some secs => collectUntil truffleIssue secs

/-- The unsorted module state after the three extraction blocks of
generate_report_FULL.py have run in order. -/
def processFull (sg tv th : Option Json) : ReportState :=
  let s1 := (semgrepIssuesFull sg).foldl (fun s i => s.addIssue .semgrep i) initState
  let s2 := (trivyIssuesFull tv).foldl (fun s i => s.addIssue .trivy i) s1
  (truffleIssuesFull th).foldl (fun s i => s.addIssueTruffle i) s2

/-- severity_order.get(sev, 5) of generate_report_FULL.py line 288. -/
def severityOrder (sev : String) : Nat :=
  if sev = "CRITICAL" then 0
  else if sev = "HIGH" then 1
  else if sev = "MEDIUM" then 2
  else if sev = "LOW" then 3
  else if sev = "INFO" then 4
  else 5

/-- The composite sort key of line 289: severity rank, then tool, then file. -/
def issueKey (i : Issue) : Nat ×ₗ (String ×ₗ String) :=
  toLex (severityOrder i.severity, toLex (i.tool, i.file))

/-- Python tuple comparison on the composite keys (lexicographic). -/
def issueLE (a b : Issue) : Bool := decide (issueKey a ≤ issueKey b)

/-- issues_found.sort(...) of line 289: a stable sort by the composite key. -/
def sortIssues (l : List Issue) : List Issue := l.mergeSort issueLE

/-- The module state after the sort at line 289. -/
def fullReport (sg tv th : Option Json) : ReportState :=
  let s := processFull sg tv th
  { s with issues := sortIssues s.issues }

/-- Python round(x, 1).  The scripts only ever round a weighted integer sum
divided by 10 (possibly capped at the integer 10), an exact multiple of one
tenth, on which every rounding convention is the identity. -/
def round10 (q : ℚ) : ℚ := ((round (10 * q) : ℤ) : ℚ) / 10

/-- The risk score of generate_report_FULL.py lines 291-295: capped at 10.0,
and 0.0 when the total is zero. -/
def riskScoreFull (s : Stats) : ℚ :=
  if 0 < s.total then
    min 10 ((4 * s.critical + 2 * s.high + s.medium : ℚ) / 10)
  else 0

/-- The risk level thresholds of generate_report_FULL.py lines 298-309. -/
def riskLevelFull (score : ℚ) : String :=
  if 7 ≤ score then "CRITICAL"
  else if 5 ≤ score then "HIGH"
  else if 3 ≤ score then "MEDIUM"
  else "LOW"

/-- The summary dict dumped to summary.json by generate_report_FULL.py lines
1237-1250.  Note that the first key is total, not total_findings. -/
def fullSummary (sg tv th : Option Json) : Json :=
  let st := (processFull sg tv th).stats
  let score := riskScoreFull st
  .obj [("total", .num st.total),
        ("critical", .num st.critical),
        ("high", .num st.high),
        ("medium", .num st.medium),
        ("low", .num st.low),
        ("info", .num st.info),
        ("risk_level", .str (riskLevelFull score)),
        ("risk_score", .num (round10 score))]

/-- The unrounded risk score of generate_report.py line 111, read from the
loaded summary with .get(key, 0). -/
def riskScoreRawA (critical high medium : Nat) : ℚ :=
  (4 * critical + 2 * high + medium : ℚ) / 10

/-- The rounded score returned by _calculate_risk_score (line 126). -/
def riskScoreA (critical high medium : Nat) : ℚ :=
  round10 (riskScoreRawA critical high medium)

/-- The risk level thresholds of generate_report.py lines 113-124, applied to
the unrounded score. -/
def riskLevelA (score : ℚ) : String :=
  if 10 ≤ score then "CRITICAL"
  else if 7 ≤ score then "HIGH"
  else if 3 ≤ score then "MEDIUM"
  else "LOW"

/-- The summary dict built by SecurityScanner.calculate_summary
(security_scan.py lines 280-288).  The by_tool entries are optional because
each is only written when its artifact parses far enough. -/
structure ScanSummary where
  total_findings : Nat
  critical : Nat
  high : Nat
  medium : Nat
  low : Nat
  info : Nat
  byToolSemgrep : Option Nat
  byToolTrivyFs : Option Nat
  byToolTrivyPkg : Option Nat
  byToolTrufflehog : Option Nat
deriving Repr, DecidableEq

/-- The initial summary dict (lines 280-288). -/
def ScanSummary.init : ScanSummary :=
  ⟨0, 0, 0, 0, 0, 0, none, none, none, none⟩

/-- The Semgrep branch of calculate_summary (lines 299-307): ERROR bumps
critical, WARNING bumps high, anything else bumps medium. -/
def scanSemgrepBump (sev : String) (s : ScanSummary) : ScanSummary :=
  if sev = "ERROR" then
    { s with critical := s.critical + 1, total_findings := s.total_findings + 1 }
  else if sev = "WARNING" then
    { s with high := s.high + 1, total_findings := s.total_findings + 1 }
  else
    { s with medium := s.medium + 1, total_findings := s.total_findings + 1 }

/-- The severity read of calculate_summary line 300. -/
def scanSemgrepSeverity (finding : Json) : Option String := do
  let extra ← finding.get "extra" (.obj [])
  let sev ← (extra.get "severity" (.str "INFO")) >>= Json.asStr
  pure (pyUpper sev)

/-- Fold a per-record severity read and bump over a list; a record that
raises keeps the bumps made so far and aborts the loop. -/
def scanFoldUntil (f : Json → Option String) (g : String → ScanSummary → ScanSummary) :
    List Json → ScanSummary → ScanSummary
  | [], s => s
  | x :: xs, s =>
    match f x with
    | some sev => scanFoldUntil f g xs (g sev s)
    | none => s

/-- Like scanFoldUntil, also reporting whether the loop completed. -/
def scanFoldUntilF (f : Json → Option String) (g : String → ScanSummary → ScanSummary) :
    List Json → ScanSummary → ScanSummary × Bool
  | [], s => (s, true)
  | x :: xs, s =>
    match f x with
    | some sev => scanFoldUntilF f g xs (g sev s)
    | none => (s, false)

/-- The Semgrep block of calculate_summary (lines 291-309): by_tool is set
from the length of the results list before the loop runs. -/
def scanSemgrep (doc : Option Json) (s : ScanSummary) : ScanSummary :=
  match doc with
  | none => s
  | some d =>
    match d.get "results" (.arr []) >>= Json.asArr with
    | none => s
    | some findings =>
      scanFoldUntil scanSemgrepSeverity scanSemgrepBump findings
        { s with byToolSemgrep := some findings.length }

/-- The Trivy branch of calculate_summary (lines 327-338): the four canonical
severities bump their buckets, anything else bumps info. -/
def scanTrivyBump (sev : String) (s : ScanSummary) : ScanSummary :=
  if sev = "CRITICAL" then
    { s with critical := s.critical + 1, total_findings := s.total_findings + 1 }
  else if sev = "HIGH" then
    { s with high := s.high + 1, total_findings := s.total_findings + 1 }
  else if sev = "MEDIUM" then
    { s with medium := s.medium + 1, total_findings := s.total_findings + 1 }
  else if sev = "LOW" then
    { s with low := s.low + 1, total_findings := s.total_findings + 1 }
  else
    { s with info := s.info + 1, total_findings := s.total_findings + 1 }

/-- The severity read of calculate_summary line 327. -/
def scanTrivySeverity (vuln : Json) : Option String := do
  let sev ← (vuln.get "Severity" (.str "UNKNOWN")) >>= Json.asStr
  pure (pyUpper sev)

/-- result.get("Vulnerabilities", []) or [] of line 323: a JSON null (or a
missing key) yields the empty list. -/
def scanVulnList (result : Json) : Option (List Json) := do
  let v ← result.get "Vulnerabilities" (.arr [])
  match v with
  | .null => pure []
  | .arr xs => pure xs
  | _ => none

/-- The per-result loop of calculate_summary lines 322-338, tracking the
running trivy_count and whether an exception was raised. -/
def scanTrivyLoop : List Json → ScanSummary → Nat → ScanSummary × Nat × Bool
  | [], s, n => (s, n, true)
  | r :: rs, s, n =>
    match scanVulnList r with
    | none => (s, n, false)
    | some vulns =>
      match scanFoldUntilF scanTrivySeverity scanTrivyBump vulns s with
      | (s1, true) => scanTrivyLoop rs s1 (n + vulns.length)
      | (s1, false) => (s1, n, false)

/-- One Trivy file of calculate_summary (lines 312-342): the by_tool entry is
written only after the whole file processed without an exception. -/
def scanTrivyFile (doc : Option Json) (setBy : Nat → ScanSummary → ScanSummary)
    (s : ScanSummary) : ScanSummary :=
  match doc with
  | none => s
  | some d =>
    match d.get "Results" (.arr []) >>= Json.asArr with
    | none => s
    | some rs =>
      match scanTrivyLoop rs s 0 with
      | (s1, n, true) => setBy n s1
      | (s1, _, false) => s1

/-- The TruffleHog block of calculate_summary (lines 345-355): every parsed
finding is counted as critical; len works on a list, dict or string. -/
def scanTrufflehog (doc : Option Json) (s : ScanSummary) : ScanSummary :=
  match doc with
  | none => s
  | some d =>
    match d.pyLen with
    | none => s
    | some n =>
      { s with byToolTrufflehog := some n,
               critical := s.critical + n,
               total_findings := s.total_findings + n }

/-- SecurityScanner.calculate_summary (security_scan.py lines 276-368) over
the four artifacts semgrep.json, trivy-fs.json, trivy-pkg.json and
trufflehog.json (none models an absent or unparsable file). -/
def calculateSummary (sg fs pkg th : Option Json) : ScanSummary :=
  scanTrufflehog th
    (scanTrivyFile pkg (fun n s => { s with byToolTrivyPkg := some n })
      (scanTrivyFile fs (fun n s => { s with byToolTrivyFs := some n })
        (scanSemgrep sg ScanSummary.init)))

/-- The by_tool sub-dict as dumped to summary.json (insertion order semgrep,
trivy-fs, trivy-pkg, trufflehog; absent entries were never written). -/
def byToolJson (s : ScanSummary) : Json :=
  .obj ((match s.byToolSemgrep with
          | some n => [("semgrep", Json.num n)]
          | none => []) ++
        (match s.byToolTrivyFs with
          | some n => [("trivy-fs", Json.num n)]
          | none => []) ++
        (match s.byToolTrivyPkg with
          | some n => [("trivy-pkg", Json.num n)]
          | none => []) ++
        (match s.byToolTrufflehog with
          | some n => [("trufflehog", Json.num n)]
          | none => []))

/-- The summary.json written by calculate_summary (lines 358-360): exactly
the keys of the dict literal at lines 280-288, in insertion order. -/
def scanSummaryJson (s : ScanSummary) : Json :=
  .obj [("total_findings", .num s.total_findings),
        ("critical", .num s.critical),
        ("high", .num s.high),
        ("medium", .num s.medium),
        ("low", .num s.low),
        ("info", .num s.info),
        ("by_tool", byToolJson s)]

/-- The trufflehog.json artifact written by SecurityScanner.run_trufflehog
(security_scan.py lines 226-241): json.dump of the list of per-line parsed
findings, hence a top-level JSON array. -/
def trufflehogArtifact (findings : List Json) : Json := .arr findings

/-- A Trivy artifact holding a single secret record whose raw Severity field
is present and equals LOW. -/
def trivyLowSecretDoc : Json :=
  .obj [("Results", .arr [
    .obj [("Target", .str "config.yml"),
          ("Secrets", .arr [.obj [("Severity", .str "LOW")]])]])]

/-- A Semgrep artifact holding a single finding with the given raw severity
token. -/
def semgrepDocWith (t : String) : Json :=
  .obj [("results", .arr [.obj [("extra", .obj [("severity", .str t)])]])]

/-- A Semgrep artifact holding a single finding with no severity field. -/
def semgrepDocNoSeverity : Json :=
  .obj [("results", .arr [.obj [("extra", .obj [])]])]

/-- A Trivy artifact holding a single vulnerability record with no Severity
field, which the extractor defaults to UNKNOWN. -/
def trivyUnknownVulnDoc : Json :=
  .obj [("Results", .arr [.obj [("Vulnerabilities", .arr [.obj []])]])]

/-- A TruffleHog artifact in the dict shape the full generator expects, with
one secret record. -/
def truffleObjDoc : Json :=
  .obj [("secrets", .arr [.obj [("DetectorName", .str "AWS")]])]

/-- A Trivy artifact holding one CRITICAL vulnerability. -/
def trivyCriticalVulnDoc : Json :=
  .obj [("Results", .arr [
    .obj [("Target", .str "pom.xml"),
          ("Vulnerabilities", .arr [.obj [("Severity", .str "CRITICAL"),
                                          ("PkgName", .str "log4j")]])]])]

/-- Sum of the five severity buckets of a stats dict. -/
def Stats.buckets (st : Stats) : Nat :=
  st.critical + st.high + st.medium + st.low + st.info

/-- Sum of the five severity buckets of a scanner summary. -/
def ScanSummary.buckets (s : ScanSummary) : Nat :=
  s.critical + s.high + s.medium + s.low + s.info

/-! Helper lemmas shared by the claim theorems. -/

/-- Rounding to one decimal is the identity on exact multiples of one
tenth. -/
theorem round10_intCast_div (k : ℤ) : round10 ((k : ℚ) / 10) = (k : ℚ) / 10 := by
  have h10 : (10 : ℚ) * ((k : ℚ) / 10) = (k : ℚ) := by field_simp
  unfold round10
  rw [h10, round_intCast]

/-- Same statement for a natural numerator. -/
theorem round10_natCast_div (n : ℕ) : round10 ((n : ℚ) / 10) = (n : ℚ) / 10 := by
  have h : ((n : ℚ) : ℚ) = ((n : ℤ) : ℚ) := by push_cast; ring
  rw [h, round10_intCast_div]

/-- The rounding step of _calculate_risk_score never changes the score, since
the weighted sum over integer counts is an exact multiple of one tenth. -/
theorem riskScoreA_eq_raw (c h m : ℕ) : riskScoreA c h m = riskScoreRawA c h m := by
  unfold riskScoreA riskScoreRawA
  have hcast : (4 * c + 2 * h + m : ℚ) = ((4 * c + 2 * h + m : ℕ) : ℚ) := by push_cast; ring
  rw [hcast, round10_natCast_div]

/-- The composite-key comparison is transitive. -/
theorem issueLE_trans (a b c : Issue) (h1 : issueLE a b = true) (h2 : issueLE b c = true) :
    issueLE a c = true := by
  simp only [issueLE, decide_eq_true_eq] at *
  exact le_trans h1 h2

/-- The composite-key comparison is total. -/
theorem issueLE_total (a b : Issue) : (issueLE a b || issueLE b a) = true := by
  simp only [issueLE, Bool.or_eq_true, decide_eq_true_eq]
  exact le_total _ _

/-- Folding addIssue appends exactly the folded issues. -/
theorem foldl_addIssue_issues (tk : ToolKey) (l : List Issue) (s : ReportState) :
    (l.foldl (fun s i => s.addIssue tk i) s).issues = s.issues ++ l := by
  induction l generalizing s with
  | nil => simp
  | cons i is ih => rw [List.foldl_cons, ih]; simp [ReportState.addIssue]

/-- Folding addIssueTruffle appends exactly the folded issues. -/
theorem foldl_addIssueTruffle_issues (l : List Issue) (s : ReportState) :
    (l.foldl (fun s i => s.addIssueTruffle i) s).issues = s.issues ++ l := by
  induction l generalizing s with
  | nil => simp
  | cons i is ih => rw [List.foldl_cons, ih]; simp [ReportState.addIssueTruffle]

/-- Folding addIssue updates the global tally by folding tallyStep. -/
theorem foldl_addIssue_stats (tk : ToolKey) (l : List Issue) (s : ReportState) :
    (l.foldl (fun s i => s.addIssue tk i) s).stats = l.foldl Stats.tallyStep s.stats := by
  induction l generalizing s with
  | nil => rfl
  | cons i is ih => rw [List.foldl_cons, ih]; simp [ReportState.addIssue]

/-- Folding addIssueTruffle updates the global tally by folding the
unconditional critical bump. -/
theorem foldl_addIssueTruffle_stats (l : List Issue) (s : ReportState) :
    (l.foldl (fun s i => s.addIssueTruffle i) s).stats
      = l.foldl (fun st _ => st.tallyStepTruffle) s.stats := by
  induction l generalizing s with
  | nil => rfl
  | cons i is ih => rw [List.foldl_cons, ih]; simp [ReportState.addIssueTruffle]

/-- The Semgrep fold touches only the Semgrep entry of tool_stats. -/
theorem foldl_addIssue_semgrep_toolStats (l : List Issue) (s : ReportState) :
    (l.foldl (fun s i => s.addIssue .semgrep i) s).toolStats
      = { s.toolStats with semgrep := l.foldl Stats.tallyStep s.toolStats.semgrep } := by
  induction l generalizing s with
  | nil => rfl
  | cons i is ih => rw [List.foldl_cons, ih]; simp [ReportState.addIssue, ToolStats.set, ToolStats.get]

/-- The Trivy fold touches only the Trivy entry of tool_stats. -/
theorem foldl_addIssue_trivy_toolStats (l : List Issue) (s : ReportState) :
    (l.foldl (fun s i => s.addIssue .trivy i) s).toolStats
      = { s.toolStats with trivy := l.foldl Stats.tallyStep s.toolStats.trivy } := by
  induction l generalizing s with
  | nil => rfl
  | cons i is ih => rw [List.foldl_cons, ih]; simp [ReportState.addIssue, ToolStats.set, ToolStats.get]

/-- The TruffleHog fold touches only the TruffleHog entry of tool_stats. -/
theorem foldl_addIssueTruffle_toolStats (l : List Issue) (s : ReportState) :
    (l.foldl (fun s i => s.addIssueTruffle i) s).toolStats
      = { s.toolStats with trufflehog :=
            (l.foldl (fun st _ => st.tallyStepTruffle) s.toolStats.trufflehog) } := by
  induction l generalizing s with
  | nil => rfl
  | cons i is ih => rw [List.foldl_cons, ih]; simp [ReportState.addIssueTruffle]

/-- The merged (unsorted) issue list is the concatenation of the three
per-extractor contributions, in tool order. -/
theorem processFull_issues (sg tv th : Option Json) :
    (processFull sg tv th).issues
      = semgrepIssuesFull sg ++ trivyIssuesFull tv ++ truffleIssuesFull th := by
  unfold processFull
  rw [foldl_addIssueTruffle_issues, foldl_addIssue_issues, foldl_addIssue_issues]
  simp [initState]

/-- The Semgrep per-tool tally depends only on the Semgrep artifact. -/
theorem processFull_toolStats_semgrep (sg tv th : Option Json) :
    (processFull sg tv th).toolStats.semgrep
      = (semgrepIssuesFull sg).foldl Stats.tallyStep Stats.zero := by
  unfold processFull
  rw [foldl_addIssueTruffle_toolStats, foldl_addIssue_trivy_toolStats,
    foldl_addIssue_semgrep_toolStats]
  simp [initState]

/-- The Trivy per-tool tally depends only on the Trivy artifact. -/
theorem processFull_toolStats_trivy (sg tv th : Option Json) :
    (processFull sg tv th).toolStats.trivy
      = (trivyIssuesFull tv).foldl Stats.tallyStep Stats.zero := by
  unfold processFull
  rw [foldl_addIssueTruffle_toolStats, foldl_addIssue_trivy_toolStats,
    foldl_addIssue_semgrep_toolStats]
  simp [initState]

/-- The TruffleHog per-tool tally depends only on the TruffleHog artifact. -/
theorem processFull_toolStats_trufflehog (sg tv th : Option Json) :
    (processFull sg tv th).toolStats.trufflehog
      = (truffleIssuesFull th).foldl (fun st _ => st.tallyStepTruffle) Stats.zero := by
  unfold processFull
  rw [foldl_addIssueTruffle_toolStats, foldl_addIssue_trivy_toolStats,
    foldl_addIssue_semgrep_toolStats]
  simp [initState]

/-- Every issue of a collectUntil run comes from applying the extractor to
some record of the input list. -/
theorem mem_collectUntil (f : Json → Option Issue) (i : Issue) :
    ∀ (l : List Json), i ∈ collectUntil f l → ∃ x ∈ l, f x = some i := by
  intro l
  induction l with
  | nil => intro h; simp [collectUntil] at h
  | cons x xs ih =>
    intro h
    rw [collectUntil] at h
    cases hfx : f x with
    | none => rw [hfx] at h; simp at h
    | some j =>
      rw [hfx] at h
      rcases List.mem_cons.mp h with h1 | h1
      · exact ⟨x, by simp, by rw [hfx, h1]⟩
      · obtain ⟨y, hy, hfy⟩ := ih h1
        exact ⟨y, by simp [hy], hfy⟩

/-- Every issue the TruffleHog record extractor yields has severity
CRITICAL. -/
theorem truffleIssue_severity (s : Json) (i : Issue) (h : truffleIssue s = some i) :
    i.severity = "CRITICAL" := by
  simp only [truffleIssue, Option.bind_eq_some, Option.pure_def, Option.some.injEq, bind] at h
  obtain ⟨sm, hsm, dat, hdat, fsys, hfsys, file, hfile, line, hline, det, hdet, ver, hver, hi⟩ := h
  rw [← hi]

/-! Claim theorems. -/

/-- C4 (counterexample): the summary.json of the full generator carries the key
total, not total_findings, while the summary.json of the scanner carries by_tool
and no risk_level or risk_score key — so neither emitter writes exactly the
eight keys the claim lists. -/
theorem C4_counterexample :
    (fullSummary none none none).keys
        = ["total", "critical", "high", "medium", "low", "info", "risk_level", "risk_score"]
  ∧ "total_findings" ∉ (fullSummary none none none).keys
  ∧ (scanSummaryJson (calculateSummary none none none none)).keys
        = ["total_findings", "critical", "high", "medium", "low", "info", "by_tool"]
  ∧ "risk_level" ∉ (scanSummaryJson (calculateSummary none none none none)).keys :=
  ⟨by decide, by decide, by decide, by decide⟩

/-- C4 (amended): in every run, the summary.json of the full generator holds
exactly the keys total, critical, high, medium, low, info, risk_level and
risk_score in that order, with a string risk level and a numeric risk score,
and the summary.json of the scanner holds exactly the keys total_findings,
critical, high, medium, low, info and by_tool. -/
theorem C4_summary_keys (sg tv th a b c d : Option Json) :
    (fullSummary sg tv th).keys
        = ["total", "critical", "high", "medium", "low", "info", "risk_level", "risk_score"]
  ∧ (∃ q : ℚ, (fullSummary sg tv th).get "risk_score" .null = some (.num q))
  ∧ (∃ lv : String, (fullSummary sg tv th).get "risk_level" .null = some (.str lv))
  ∧ (scanSummaryJson (calculateSummary a b c d)).keys
        = ["total_findings", "critical", "high", "medium", "low", "info", "by_tool"] := by
  refine ⟨rfl, ⟨round10 (riskScoreFull (processFull sg tv th).stats), ?_⟩,
    ⟨riskLevelFull (riskScoreFull (processFull sg tv th).stats), ?_⟩, rfl⟩
  · simp [fullSummary, Json.get, List.lookup]
  · simp [fullSummary, Json.get, List.lookup]

/-- C5 (counterexample): with 30 critical findings the risk score of the
full generator is the cap 10, not the uncapped weighted formula value 12. -/
theorem C5_counterexample :
    riskScoreFull ⟨30, 0, 0, 0, 0, 30⟩ = 10
  ∧ (4 * 30 + 2 * 0 + 0 : ℚ) / 10 = 12
  ∧ riskScoreFull ⟨30, 0, 0, 0, 0, 30⟩ ≠ (4 * 30 + 2 * 0 + 0 : ℚ) / 10 := by
  norm_num [riskScoreFull]

/-- C5 (amended): generate_report.py computes exactly
(critical×4 + high×2 + medium×1)/10; generate_report_FULL.py computes
min(10, that formula) when the total is positive (hence agrees with the
formula exactly when the formula is at most 10), and the low and info counts
have no effect on either score. -/
theorem C5_risk_score_formula (c h m l i t l2 i2 : ℕ) (ht : 0 < t) :
    riskScoreA c h m = (4 * c + 2 * h + m : ℚ) / 10
  ∧ riskScoreFull ⟨c, h, m, l, i, t⟩ = min 10 ((4 * c + 2 * h + m : ℚ) / 10)
  ∧ riskScoreFull ⟨c, h, m, l2, i2, t⟩ = riskScoreFull ⟨c, h, m, l, i, t⟩
  ∧ ((4 * c + 2 * h + m : ℚ) / 10 ≤ 10 →
      riskScoreFull ⟨c, h, m, l, i, t⟩ = riskScoreA c h m) := by
  have hA := riskScoreA_eq_raw c h m
  refine ⟨by rw [hA]; rfl, by simp [riskScoreFull, ht], rfl, ?_⟩
  intro hle
  rw [hA]
  simp only [riskScoreFull, ht, if_pos]
  exact min_eq_right hle

/-- C5 witness: the amended statement instantiated at the tally
(2 critical, 3 high, 5 medium, low/info varied, total 12). -/
theorem C5_risk_score_formula_witness :
    riskScoreA 2 3 5 = (4 * 2 + 2 * 3 + 5 : ℚ) / 10
  ∧ riskScoreFull ⟨2, 3, 5, 7, 9, 12⟩ = riskScoreFull ⟨2, 3, 5, 1, 1, 12⟩
  ∧ riskScoreFull ⟨2, 3, 5, 1, 1, 12⟩ = riskScoreA 2 3 5 :=
  ⟨(C5_risk_score_formula 2 3 5 1 1 12 7 9 (by decide)).1,
   (C5_risk_score_formula 2 3 5 1 1 12 7 9 (by decide)).2.2.1,
   (C5_risk_score_formula 2 3 5 1 1 12 7 9 (by decide)).2.2.2 (by norm_num)⟩

/-- C6 (counterexample): with 30 critical findings the computed risk score
of the full generator is not 12.0 (it is capped at 10.0). -/
theorem C6_counterexample : riskScoreFull ⟨30, 0, 0, 0, 0, 30⟩ ≠ 12 := by
  norm_num [riskScoreFull]

/-- C6 (amended): 10 critical findings score 4.0 in both variants; 30
critical findings score 12.0 in generate_report.py but 10.0 (capped) in
generate_report_FULL.py, and both variants classify the result CRITICAL. -/
theorem C6_scenario :
    riskScoreA 10 0 0 = 4
  ∧ riskScoreFull ⟨10, 0, 0, 0, 0, 10⟩ = 4
  ∧ riskScoreA 30 0 0 = 12
  ∧ riskLevelA (riskScoreRawA 30 0 0) = "CRITICAL"
  ∧ riskScoreFull ⟨30, 0, 0, 0, 0, 30⟩ = 10
  ∧ riskLevelFull (riskScoreFull ⟨30, 0, 0, 0, 0, 30⟩) = "CRITICAL" := by
  have h10 := riskScoreA_eq_raw 10 0 0
  have h30 := riskScoreA_eq_raw 30 0 0
  refine ⟨?_, ?_, ?_, ?_, ?_, ?_⟩ <;>
    norm_num [h10, h30, riskScoreRawA, riskScoreFull, riskLevelA, riskLevelFull]

/-- C8 (confirmed): the merged findings sequence is sorted by the composite
key (severity rank, then tool, then file location, lexicographically
combined), and sorting is deterministic: re-sorting the sorted sequence
returns it unchanged. -/
theorem C8_sorted_deterministic (sg tv th : Option Json) (l : List Issue) :
    List.Pairwise (fun a b => issueLE a b = true) (fullReport sg tv th).issues
  ∧ sortIssues (sortIssues l) = sortIssues l :=
  ⟨List.sorted_mergeSort issueLE_trans issueLE_total _,
   List.mergeSort_of_sorted (List.sorted_mergeSort issueLE_trans issueLE_total l)⟩

/-- C10 (confirmed): a TruffleHog artifact whose top level is a JSON array —
the very shape run_trufflehog writes — contributes no findings in the full
generator: the whole pipeline state (merged issues, global tally, per-tool
tallies) and the emitted summary are the same as with no TruffleHog artifact
at all. -/
theorem C10_array_artifact_ignored (findings : List Json) (sg tv : Option Json) :
    truffleIssuesFull (some (trufflehogArtifact findings)) = []
  ∧ processFull sg tv (some (trufflehogArtifact findings)) = processFull sg tv none
  ∧ fullReport sg tv (some (trufflehogArtifact findings)) = fullReport sg tv none
  ∧ fullSummary sg tv (some (trufflehogArtifact findings)) = fullSummary sg tv none :=
  ⟨rfl, rfl, rfl, rfl⟩

/-- C1 (counterexample): a Trivy secret record whose raw Severity field is
present and equals LOW is normalized to a Finding of severity LOW — below
HIGH — because the extractor only defaults to HIGH when the field is
absent. -/
theorem C1_counterexample :
    (trivyIssuesFull (some trivyLowSecretDoc)).map Issue.severity = ["LOW"]
  ∧ (trivyIssuesFull (some trivyLowSecretDoc)).map Issue.type = ["Secret"]
  ∧ "LOW" ∉ (["CRITICAL", "HIGH"] : List String) :=
  ⟨by decide, by decide, by decide⟩

/-- C1 (amended): every TruffleHog-path finding has severity CRITICAL, and a
Trivy secret record is normalized to HIGH when its raw Severity field is
absent — but a present raw severity (such as LOW) passes through uppercased,
so the at-least-HIGH policy holds only for the TruffleHog path and for
Trivy secrets without an explicit lower severity. -/
theorem C1_secret_severity_policy :
    (∀ th i, i ∈ truffleIssuesFull th → i.severity = "CRITICAL")
  ∧ (∀ result kvs i, kvs.lookup "Severity" = (none : Option Json) →
      trivySecretIssue result (.obj kvs) = some i → i.severity = "HIGH") := by
  constructor
  · intro th i hi
    match th with
    | none => simp [truffleIssuesFull] at hi
    | some doc =>
      simp only [truffleIssuesFull] at hi
      cases hga : doc.get "secrets" (Json.arr []) >>= Json.asArr with
      | none => rw [hga] at hi; simp at hi
      | some secs =>
        rw [hga] at hi
        obtain ⟨x, hx, hfx⟩ := mem_collectUntil _ _ _ hi
        exact truffleIssue_severity x i hfx
  · intro result kvs i hlook h
    unfold trivySecretIssue at h
    rw [show (Json.obj kvs).get "Severity" (Json.str "HIGH") = some (Json.str "HIGH") by
      simp [Json.get, hlook]] at h
    simp only [Option.bind_eq_some, Option.pure_def, Option.some.injEq, bind, Json.asStr] at h
    obtain ⟨sevRaw, hsev, target, htg, line, hln, stl, hstl, rid, hrid, hi⟩ := h
    obtain ⟨a, ha, ha2⟩ := hsev
    rw [← ha] at ha2
    simp only [Option.some.injEq] at ha2
    rw [← hi]
    show pyUpper sevRaw = "HIGH"
    rw [← ha2]
    decide

/-- C1 witness: the policy applied to a concrete TruffleHog finding and to a
concrete Trivy secret record with no Severity field. -/
theorem C1_secret_severity_policy_witness :
    ({ tool := "TruffleHog", type := "Secret", severity := "CRITICAL", file := "Unknown",
       line := 0, title := "AWS", details := "Verified: False" } : Issue).severity = "CRITICAL"
  ∧ ({ tool := "Trivy", type := "Secret", severity := "HIGH", file := "Unknown",
       line := 0, title := "Secret detected",
       details := "Secret found - hidden for security" } : Issue).severity = "HIGH" :=
  ⟨C1_secret_severity_policy.1 (some truffleObjDoc) _ (by decide),
   C1_secret_severity_policy.2 (Json.obj []) [] _ rfl (by decide)⟩

/-- C2 (counterexample): the scanner summary maps a Semgrep ERROR into the
critical bucket (not high) and a WARNING into the high bucket (not medium),
and the full generator passes an unrecognized raw token such as CRITICAL
through unchanged instead of mapping it to INFO. -/
theorem C2_counterexample :
    (calculateSummary (some (semgrepDocWith "ERROR")) none none none).critical = 1
  ∧ (calculateSummary (some (semgrepDocWith "ERROR")) none none none).high = 0
  ∧ (calculateSummary (some (semgrepDocWith "WARNING")) none none none).medium = 0
  ∧ (calculateSummary (some (semgrepDocWith "WARNING")) none none none).high = 1
  ∧ (semgrepIssuesFull (some (semgrepDocWith "CRITICAL"))).map Issue.severity = ["CRITICAL"] :=
  ⟨by decide, by decide, by decide, by decide, by decide⟩

/-- C2 (amended): the extraction of the full generator maps ERROR to HIGH, WARNING
to MEDIUM, a missing severity to INFO, and passes any other token through
uppercased; the scanner summary instead tallies ERROR as critical, WARNING
as high, and anything else (including a missing severity) as medium. -/
theorem C2_severity_mapping (t : String) :
    (semgrepIssuesFull (some (semgrepDocWith t))).map Issue.severity
        = [if pyUpper t = "ERROR" then "HIGH"
           else if pyUpper t = "WARNING" then "MEDIUM" else pyUpper t]
  ∧ (semgrepIssuesFull (some semgrepDocNoSeverity)).map Issue.severity = ["INFO"]
  ∧ (calculateSummary (some (semgrepDocWith t)) none none none).critical
        = (if pyUpper t = "ERROR" then 1 else 0)
  ∧ (calculateSummary (some (semgrepDocWith t)) none none none).high
        = (if pyUpper t = "WARNING" then 1 else 0)
  ∧ (calculateSummary (some (semgrepDocWith t)) none none none).medium
        = (if pyUpper t = "ERROR" ∨ pyUpper t = "WARNING" then 0 else 1)
  ∧ (calculateSummary (some semgrepDocNoSeverity) none none none).medium = 1 := by
  refine ⟨?_, by decide, ?_, ?_, ?_, by decide⟩
  · simp only [semgrepDocWith, semgrepIssuesFull, Json.get, Json.asArr, List.lookup, collectUntil,
      semgrepIssue, Json.asStr, Json.asNum, bind, Option.bind, Option.getD, List.map]
  all_goals
    simp only [calculateSummary, scanTrufflehog, scanTrivyFile, scanSemgrep, semgrepDocWith,
      Json.get, Json.asArr, List.lookup, scanFoldUntil, scanSemgrepSeverity, scanSemgrepBump,
      ScanSummary.init, bind, Option.bind, Option.getD, beq_self_eq_true, Option.pure_def,
      Json.asStr]
    split_ifs <;> simp_all

/-! Invariant-preservation lemmas for the tallies. -/

/-- One conditional tally step keeps the bucket sum at or below the total. -/
theorem buckets_tallyStep_le (st : Stats) (i : Issue) (hle : st.buckets ≤ st.total) :
    (st.tallyStep i).buckets ≤ (st.tallyStep i).total := by
  simp only [Stats.tallyStep, Stats.bump, Stats.buckets] at *
  split_ifs <;> (try simp_all) <;> omega

/-- Folding conditional tally steps keeps the bucket sum at or below the
total. -/
theorem buckets_foldl_tallyStep_le (l : List Issue) (st : Stats) (hle : st.buckets ≤ st.total) :
    (l.foldl Stats.tallyStep st).buckets ≤ (l.foldl Stats.tallyStep st).total := by
  induction l generalizing st with
  | nil => exact hle
  | cons i is ih => exact ih _ (buckets_tallyStep_le st i hle)

/-- Folding unconditional TruffleHog tally steps keeps the bucket sum at or
below the total. -/
theorem buckets_foldl_truffle_le (l : List Issue) (st : Stats) (hle : st.buckets ≤ st.total) :
    (l.foldl (fun st _ => st.tallyStepTruffle) st).buckets
      ≤ (l.foldl (fun st _ => st.tallyStepTruffle) st).total := by
  induction l generalizing st with
  | nil => exact hle
  | cons i is ih =>
    refine ih _ ?_
    simp only [Stats.tallyStepTruffle, Stats.buckets] at *
    omega

/-- The global tally of the full pipeline is the fold of the per-record
updates over the three contribution lists. -/
theorem processFull_stats (sg tv th : Option Json) :
    (processFull sg tv th).stats
      = (truffleIssuesFull th).foldl (fun st _ => st.tallyStepTruffle)
          ((trivyIssuesFull tv).foldl Stats.tallyStep
            ((semgrepIssuesFull sg).foldl Stats.tallyStep Stats.zero)) := by
  unfold processFull
  rw [foldl_addIssueTruffle_stats, foldl_addIssue_stats, foldl_addIssue_stats]
  rfl

/-- The Semgrep bump of the scanner preserves the sum invariant. -/
theorem scanInv_semgrepBump (sev : String) (s : ScanSummary)
    (hs : s.total_findings = s.buckets) :
    (scanSemgrepBump sev s).total_findings = (scanSemgrepBump sev s).buckets := by
  simp only [scanSemgrepBump, ScanSummary.buckets] at *
  split_ifs <;> simp <;> omega

/-- The Trivy bump of the scanner preserves the sum invariant. -/
theorem scanInv_trivyBump (sev : String) (s : ScanSummary)
    (hs : s.total_findings = s.buckets) :
    (scanTrivyBump sev s).total_findings = (scanTrivyBump sev s).buckets := by
  simp only [scanTrivyBump, ScanSummary.buckets] at *
  split_ifs <;> simp <;> omega

/-- A fold of invariant-preserving bumps preserves the sum invariant. -/
theorem scanInv_foldUntil (f : Json → Option String) (g : String → ScanSummary → ScanSummary)
    (hg : ∀ sev s, s.total_findings = s.buckets →
      (g sev s).total_findings = (g sev s).buckets) :
    ∀ (l : List Json) (s : ScanSummary), s.total_findings = s.buckets →
      (scanFoldUntil f g l s).total_findings = (scanFoldUntil f g l s).buckets
  | [], s, hs => hs
  | x :: xs, s, hs => by
    simp only [scanFoldUntil]
    cases hfx : f x with
    | none => exact hs
    | some sev => exact scanInv_foldUntil f g hg xs _ (hg sev s hs)

/-- The flagged fold also preserves the sum invariant. -/
theorem scanInv_foldUntilF (f : Json → Option String) (g : String → ScanSummary → ScanSummary)
    (hg : ∀ sev s, s.total_findings = s.buckets →
      (g sev s).total_findings = (g sev s).buckets) :
    ∀ (l : List Json) (s : ScanSummary), s.total_findings = s.buckets →
      (scanFoldUntilF f g l s).1.total_findings = (scanFoldUntilF f g l s).1.buckets
  | [], s, hs => hs
  | x :: xs, s, hs => by
    simp only [scanFoldUntilF]
    cases hfx : f x with
    | none => exact hs
    | some sev => exact scanInv_foldUntilF f g hg xs _ (hg sev s hs)

/-- The per-result Trivy loop preserves the sum invariant. -/
theorem scanInv_trivyLoop :
    ∀ (rs : List Json) (s : ScanSummary) (n : Nat), s.total_findings = s.buckets →
      (scanTrivyLoop rs s n).1.total_findings = (scanTrivyLoop rs s n).1.buckets
  | [], s, n, hs => hs
  | r :: rs, s, n, hs => by
    rcases hv : scanVulnList r with _ | vulns
    · simp only [scanTrivyLoop, hv]
      exact hs
    · simp only [scanTrivyLoop, hv]
      have h1 := scanInv_foldUntilF scanTrivySeverity scanTrivyBump scanInv_trivyBump vulns s hs
      rcases hfold : scanFoldUntilF scanTrivySeverity scanTrivyBump vulns s with ⟨s1, ok⟩
      rw [hfold] at h1
      cases ok with
      | true => exact scanInv_trivyLoop rs s1 (n + vulns.length) h1
      | false => exact h1

/-- Processing one Trivy file preserves the sum invariant, provided the
by_tool write leaves the count fields alone. -/
theorem scanInv_trivyFile (doc : Option Json) (setBy : Nat → ScanSummary → ScanSummary)
    (hset : ∀ n s, (setBy n s).total_findings = s.total_findings
      ∧ (setBy n s).buckets = s.buckets)
    (s : ScanSummary) (hs : s.total_findings = s.buckets) :
    (scanTrivyFile doc setBy s).total_findings = (scanTrivyFile doc setBy s).buckets := by
  cases doc with
  | none => exact hs
  | some d =>
    rcases hga : d.get "Results" (Json.arr []) >>= Json.asArr with _ | rs
    · simp only [scanTrivyFile, hga]
      exact hs
    · simp only [scanTrivyFile, hga]
      have h1 := scanInv_trivyLoop rs s 0 hs
      rcases hloop : scanTrivyLoop rs s 0 with ⟨s1, n, ok⟩
      rw [hloop] at h1
      cases ok with
      | true => rw [(hset n s1).1, (hset n s1).2]; exact h1
      | false => exact h1

/-- The Semgrep block of calculate_summary preserves the sum invariant. -/
theorem scanInv_scanSemgrep (doc : Option Json) (s : ScanSummary)
    (hs : s.total_findings = s.buckets) :
    (scanSemgrep doc s).total_findings = (scanSemgrep doc s).buckets := by
  cases doc with
  | none => exact hs
  | some d =>
    simp only [scanSemgrep]
    cases hga : d.get "results" (Json.arr []) >>= Json.asArr with
    | none => exact hs
    | some findings =>
      exact scanInv_foldUntil scanSemgrepSeverity scanSemgrepBump scanInv_semgrepBump
        findings _ hs

/-- The TruffleHog block of calculate_summary preserves the sum invariant. -/
theorem scanInv_scanTrufflehog (doc : Option Json) (s : ScanSummary)
    (hs : s.total_findings = s.buckets) :
    (scanTrufflehog doc s).total_findings = (scanTrufflehog doc s).buckets := by
  cases doc with
  | none => exact hs
  | some d =>
    simp only [scanTrufflehog]
    cases hn : d.pyLen with
    | none => exact hs
    | some n =>
      simp only [ScanSummary.buckets] at *
      omega

/-- C3 (counterexample): one Trivy vulnerability record with a missing
Severity field (normalized to UNKNOWN) makes the global tally of the full
generator read total 1 while all five buckets stay 0 — the sum invariant the
claim states fails. -/
theorem C3_counterexample :
    (processFull none (some trivyUnknownVulnDoc) none).stats.total = 1
  ∧ (processFull none (some trivyUnknownVulnDoc) none).stats.buckets = 0
  ∧ (processFull none (some trivyUnknownVulnDoc) none).stats.total
      ≠ (processFull none (some trivyUnknownVulnDoc) none).stats.buckets :=
  ⟨by decide, by decide, by decide⟩

/-- C3 (amended): the scanner summary satisfies
total == critical+high+medium+low+info for every input, but the tallies of the
full generator (global and per-tool) only satisfy
critical+high+medium+low+info ≤ total: a record whose normalized severity is
outside the five canonical values increments the total and no bucket. -/
theorem C3_tally_invariant (a b c d sg tv th : Option Json) :
    (calculateSummary a b c d).total_findings = (calculateSummary a b c d).buckets
  ∧ (processFull sg tv th).stats.buckets ≤ (processFull sg tv th).stats.total
  ∧ (processFull sg tv th).toolStats.semgrep.buckets
      ≤ (processFull sg tv th).toolStats.semgrep.total
  ∧ (processFull sg tv th).toolStats.trivy.buckets
      ≤ (processFull sg tv th).toolStats.trivy.total
  ∧ (processFull sg tv th).toolStats.trufflehog.buckets
      ≤ (processFull sg tv th).toolStats.trufflehog.total := by
  refine ⟨?_, ?_, ?_, ?_, ?_⟩
  · unfold calculateSummary
    apply scanInv_scanTrufflehog
    apply scanInv_trivyFile c (fun n s => { s with byToolTrivyPkg := some n })
      (fun n s => ⟨rfl, rfl⟩)
    apply scanInv_trivyFile b (fun n s => { s with byToolTrivyFs := some n })
      (fun n s => ⟨rfl, rfl⟩)
    exact scanInv_scanSemgrep a _ rfl
  · rw [processFull_stats]
    apply buckets_foldl_truffle_le
    apply buckets_foldl_tallyStep_le
    apply buckets_foldl_tallyStep_le
    exact le_refl 0
  · rw [processFull_toolStats_semgrep]
    exact buckets_foldl_tallyStep_le _ _ (le_refl 0)
  · rw [processFull_toolStats_trivy]
    exact buckets_foldl_tallyStep_le _ _ (le_refl 0)
  · rw [processFull_toolStats_trufflehog]
    exact buckets_foldl_truffle_le _ _ (le_refl 0)

/-- C7 (confirmed): both risk scores are non-negative, and both are
non-decreasing in the critical, high and medium counts (the full
one of the full generator, with its cap and total-zero guard, is
non-decreasing as the tally grows). -/
theorem C7_score_monotone (c h m l i t c2 h2 m2 l2 i2 t2 : ℕ)
    (hc : c ≤ c2) (hh : h ≤ h2) (hm : m ≤ m2) (ht : t ≤ t2) :
    0 ≤ riskScoreRawA c h m
  ∧ 0 ≤ riskScoreA c h m
  ∧ 0 ≤ riskScoreFull ⟨c, h, m, l, i, t⟩
  ∧ riskScoreRawA c h m ≤ riskScoreRawA c2 h2 m2
  ∧ riskScoreA c h m ≤ riskScoreA c2 h2 m2
  ∧ riskScoreFull ⟨c, h, m, l, i, t⟩ ≤ riskScoreFull ⟨c2, h2, m2, l2, i2, t2⟩ := by
  have hc2 : (c : ℚ) ≤ c2 := by exact_mod_cast hc
  have hh2 : (h : ℚ) ≤ h2 := by exact_mod_cast hh
  have hm2 : (m : ℚ) ≤ m2 := by exact_mod_cast hm
  have key : (4 * (c : ℚ) + 2 * h + m) / 10 ≤ (4 * (c2 : ℚ) + 2 * h2 + m2) / 10 := by gcongr
  have nn : (0 : ℚ) ≤ (4 * (c : ℚ) + 2 * h + m) / 10 := by positivity
  have nn2 : (0 : ℚ) ≤ (4 * (c2 : ℚ) + 2 * h2 + m2) / 10 := by positivity
  refine ⟨nn, ?_, ?_, key, ?_, ?_⟩
  · rw [riskScoreA_eq_raw]; exact nn
  · show (0 : ℚ) ≤ if 0 < t then min 10 ((4 * (c : ℚ) + 2 * h + m) / 10) else 0
    split_ifs
    · exact le_min (by norm_num) nn
    · exact le_refl 0
  · rw [riskScoreA_eq_raw, riskScoreA_eq_raw]; exact key
  · show (if 0 < t then min 10 ((4 * (c : ℚ) + 2 * h + m) / 10) else 0)
      ≤ if 0 < t2 then min 10 ((4 * (c2 : ℚ) + 2 * h2 + m2) / 10) else 0
    split_ifs with h1 h2 h2
    · exact min_le_min (le_refl 10) key
    · omega
    · exact le_min (by norm_num) nn2
    · exact le_refl 0

/-- C7 witness: the monotonicity statement at a concrete pair of tallies. -/
theorem C7_score_monotone_witness :
    0 ≤ riskScoreRawA 1 2 3
  ∧ 0 ≤ riskScoreFull ⟨1, 2, 3, 4, 5, 15⟩
  ∧ riskScoreRawA 1 2 3 ≤ riskScoreRawA 2 2 3
  ∧ riskScoreFull ⟨1, 2, 3, 4, 5, 15⟩ ≤ riskScoreFull ⟨2, 2, 3, 4, 5, 16⟩ :=
  ⟨(C7_score_monotone 1 2 3 4 5 15 2 2 3 4 5 16
      (by decide) (by decide) (by decide) (by decide)).1,
   (C7_score_monotone 1 2 3 4 5 15 2 2 3 4 5 16
      (by decide) (by decide) (by decide) (by decide)).2.2.1,
   (C7_score_monotone 1 2 3 4 5 15 2 2 3 4 5 16
      (by decide) (by decide) (by decide) (by decide)).2.2.2.1,
   (C7_score_monotone 1 2 3 4 5 15 2 2 3 4 5 16
      (by decide) (by decide) (by decide) (by decide)).2.2.2.2.2⟩

/-- C9 (confirmed): when the artifact of any one tool is absent or unparsable,
every finding extracted from the other two artifacts still appears in the
sorted merged sequence, the per-tool tallies of the surviving tools equal those of
a run where all artifacts parse, and the summary object is still emitted. -/
theorem C9_failure_tolerance (sg tv th : Option Json) :
    (∀ i, i ∈ trivyIssuesFull tv → i ∈ (fullReport none tv th).issues)
  ∧ (∀ i, i ∈ truffleIssuesFull th → i ∈ (fullReport none tv th).issues)
  ∧ (∀ i, i ∈ semgrepIssuesFull sg → i ∈ (fullReport sg none th).issues)
  ∧ (∀ i, i ∈ truffleIssuesFull th → i ∈ (fullReport sg none th).issues)
  ∧ (∀ i, i ∈ semgrepIssuesFull sg → i ∈ (fullReport sg tv none).issues)
  ∧ (∀ i, i ∈ trivyIssuesFull tv → i ∈ (fullReport sg tv none).issues)
  ∧ (fullReport none tv th).toolStats.trivy = (fullReport sg tv th).toolStats.trivy
  ∧ (fullReport none tv th).toolStats.trufflehog = (fullReport sg tv th).toolStats.trufflehog
  ∧ (fullReport sg none th).toolStats.semgrep = (fullReport sg tv th).toolStats.semgrep
  ∧ (fullReport sg none th).toolStats.trufflehog = (fullReport sg tv th).toolStats.trufflehog
  ∧ (fullReport sg tv none).toolStats.semgrep = (fullReport sg tv th).toolStats.semgrep
  ∧ (fullReport sg tv none).toolStats.trivy = (fullReport sg tv th).toolStats.trivy
  ∧ (fullSummary none tv th).isObj = true
  ∧ (fullSummary sg none th).isObj = true
  ∧ (fullSummary sg tv none).isObj = true := by
  have hmem : ∀ (a b c : Option Json) (i : Issue), i ∈ (processFull a b c).issues →
      i ∈ (fullReport a b c).issues := by
    intro a b c i hi
    exact ((List.mergeSort_perm (processFull a b c).issues issueLE).mem_iff).mpr hi
  refine ⟨?_, ?_, ?_, ?_, ?_, ?_, ?_, ?_, ?_, ?_, ?_, ?_, rfl, rfl, rfl⟩
  · intro i hi
    exact hmem _ _ _ _ (by
      rw [processFull_issues]
      exact List.mem_append_left _ (List.mem_append_right _ hi))
  · intro i hi
    exact hmem _ _ _ _ (by rw [processFull_issues]; exact List.mem_append_right _ hi)
  · intro i hi
    exact hmem _ _ _ _ (by
      rw [processFull_issues]
      exact List.mem_append_left _ (List.mem_append_left _ hi))
  · intro i hi
    exact hmem _ _ _ _ (by rw [processFull_issues]; exact List.mem_append_right _ hi)
  · intro i hi
    exact hmem _ _ _ _ (by
      rw [processFull_issues]
      exact List.mem_append_left _ (List.mem_append_left _ hi))
  · intro i hi
    exact hmem _ _ _ _ (by
      rw [processFull_issues]
      exact List.mem_append_left _ (List.mem_append_right _ hi))
  · show (processFull none tv th).toolStats.trivy = (processFull sg tv th).toolStats.trivy
    rw [processFull_toolStats_trivy, processFull_toolStats_trivy]
  · show (processFull none tv th).toolStats.trufflehog
        = (processFull sg tv th).toolStats.trufflehog
    rw [processFull_toolStats_trufflehog, processFull_toolStats_trufflehog]
  · show (processFull sg none th).toolStats.semgrep = (processFull sg tv th).toolStats.semgrep
    rw [processFull_toolStats_semgrep, processFull_toolStats_semgrep]
  · show (processFull sg none th).toolStats.trufflehog
        = (processFull sg tv th).toolStats.trufflehog
    rw [processFull_toolStats_trufflehog, processFull_toolStats_trufflehog]
  · show (processFull sg tv none).toolStats.semgrep = (processFull sg tv th).toolStats.semgrep
    rw [processFull_toolStats_semgrep, processFull_toolStats_semgrep]
  · show (processFull sg tv none).toolStats.trivy = (processFull sg tv th).toolStats.trivy
    rw [processFull_toolStats_trivy, processFull_toolStats_trivy]

/-- C9 witness: with the Semgrep artifact missing, a concrete Trivy CRITICAL
vulnerability still reaches the sorted merged sequence. -/
theorem C9_failure_tolerance_witness :
    ({ tool := "Trivy", type := "Vulnerability", severity := "CRITICAL", file := "pom.xml",
       line := 0, title := "log4j - ",
       details := "Version: ? | Fix: No fix available" } : Issue)
      ∈ (fullReport none (some trivyCriticalVulnDoc) none).issues :=
  (C9_failure_tolerance none (some trivyCriticalVulnDoc) none).1 _ (by decide)

end SecReport
